import Mathlib

/-!
Verification of the identity and token service of the Neodusria backend,
embedded from `src/app/routes/users.py`.

The repository code under `src/` calls two third-party libraries whose code is
not part of the repository: `passlib` (bcrypt hashing via `pwd_context`) and
`python-jose` (`jwt.encode` / `jwt.decode`).  Those two operations are modelled
from the specification (see the doc comments marked "Modelled from the spec"):
bcrypt as a self-describing parameter-carrying digest that verification
recomputes and compares, and the JWT layer as an ideal symbolic MAC whose
signature covers every claim and whose expiry check fails when `now ≥ exp`.
The digest function itself is a parameter `dg` of the development, so nothing
proved below depends on what the digest computes.  Everything else — the
MongoDB-backed store operations, the route handlers `create_user`,
`update_user`, `delete_user`, `login` and `get_current_user`, their
`try/except` wrapping and their error payloads — is translated directly from
the source.  Time is modelled in seconds as `Int`; `ObjectId` values are
24-character hexadecimal strings, as in `bson`.
-/

namespace Neodusria

/-- Stored password field of a user document.  The source stores the result of
`pwd_context.hash` (a bcrypt modular-crypt string embedding cost, salt and
digest); a raw password stored verbatim would be a `plain` value, which no
bcrypt verifier recognises. -/
inductive PwField where
  | hashed (cost salt dgst : Nat)
  | plain (s : String)
deriving DecidableEq

/-- Modelled from the spec: `pwd_context.hash` (passlib bcrypt, absent from
`src/`).  Produces a salted one-way hash encoding algorithm cost, salt and
digest together in one self-describing value.  `dg` is the abstract bcrypt
digest function, `cost` and `salt` the work factor and random salt chosen at
hashing time. -/
def hash_password (dg : Nat → Nat → String → Nat) (cost salt : Nat)
    (p : String) : PwField :=
  .hashed cost salt (dg cost salt p)

/-- Modelled from the spec: `pwd_context.verify` (passlib bcrypt, absent from
`src/`).  Recomputes the digest using the parameters embedded in the stored
hash and compares; per the spec it returns `false` on any mismatch or
malformed stored hash and never raises (it is a total function). -/
def verify_password (dg : Nat → Nat → String → Nat) (raw : String) :
    PwField → Bool
  | .hashed cost salt dgst => dg cost salt raw == dgst
  | .plain _ => false

/-- Claims carried by an access token: `sub` (set by `login` to the user id,
possibly absent in a foreign token), `role`, and the `exp` timestamp added by
`create_access_token`. -/
structure TokenClaims where
  sub : Option String
  role : String
  exp : Int
deriving DecidableEq

/-- Modelled from the spec: the HS256 signature of `python-jose`, as an ideal
symbolic MAC.  A signature is the (unforgeable) act of signing a specific
claim set with a specific key, so it covers every claim. -/
structure TokenSig where
  key : String
  payload : TokenClaims
deriving DecidableEq

/-- A well-formed JWT: its claim set together with the signature it carries
(which may or may not match the claims). -/
structure SignedToken where
  claims : TokenClaims
  sig : TokenSig
deriving DecidableEq

/-- A bearer string presented by a caller: either a structurally well-formed
JWT or an unparseable blob. -/
inductive BearerToken where
  | jwt (t : SignedToken)
  | malformed (s : String)
deriving DecidableEq

/-- Error kinds of `python-jose`; all three extend `JWTError`, which is the
class caught in `get_current_user`. -/
inductive JoseError where
  | malformedToken
  | invalidSignature
  | expiredSignature
deriving DecidableEq

/-- The module-level signing secret of `src/app/routes/users.py`. -/
def SECRET_KEY : String := "your-secret-key"

/-- Default token lifetime, in minutes, from `src/app/routes/users.py`. -/
def ACCESS_TOKEN_EXPIRE_MINUTES : Int := 60

/-- Modelled from the spec: `jwt.encode` (python-jose, absent from `src/`).
Signs the claim set with the key. -/
def jwt_encode (claims : TokenClaims) (key : String) : SignedToken :=
  ⟨claims, ⟨key, claims⟩⟩

/-- Modelled from the spec: `jwt.decode` (python-jose, absent from `src/`).
Fails on malformed structure, then on a signature that does not match the
claims under the given key, then — per the spec, "Fails with TokenExpired if
now ≥ expires-at" — on expiry; otherwise returns the claims. -/
def jwt_decode (tok : BearerToken) (key : String) (now : Int) :
    Except JoseError TokenClaims :=
  match tok with
  | .malformed _ => .error .malformedToken
  | .jwt t =>
    if t.sig = TokenSig.mk key t.claims then
      if now ≥ t.claims.exp then .error .expiredSignature
      else .ok t.claims
    else .error .invalidSignature

/-- From `create_access_token` in the source: copies the data (`sub`, `role`),
sets `exp` to now plus the supplied delta (seconds) or the default of
`ACCESS_TOKEN_EXPIRE_MINUTES` minutes, and signs with `SECRET_KEY`. -/
def create_access_token (sub : Option String) (role : String)
    (expires_delta : Option Int) (now : Int) : SignedToken :=
  jwt_encode
    { sub := sub, role := role,
      exp := now + expires_delta.getD (ACCESS_TOKEN_EXPIRE_MINUTES * 60) }
    SECRET_KEY

/-- A user document as stored in the `users` collection; `id` is the `_id`
field (its string rendering). -/
structure StoredUser where
  id : String
  name : String
  email : String
  role : String
  password : PwField
  avatar : Option String
  domain : String
  permissions : List String
deriving DecidableEq

/-- The pydantic `User` request model: the payload of create and update
requests, with the raw password. -/
structure UserIn where
  name : String
  email : String
  role : String
  password : String
  avatar : Option String
  domain : String
  permissions : List String
deriving DecidableEq

/-- The `users` collection, in natural (insertion) order, together with the
seed from which the next inserted `_id` is generated. -/
structure Store where
  users : List StoredUser
  nextId : Nat
deriving DecidableEq

/-- Hexadecimal digit test for ObjectId strings. -/
def isHexDigitChar (c : Char) : Bool :=
  c.isDigit || (Char.ofNat 97 ≤ c && c ≤ Char.ofNat 102) ||
    (Char.ofNat 65 ≤ c && c ≤ Char.ofNat 70)

/-- Validity of a `bson.ObjectId` string: 24 hexadecimal characters.
`ObjectId(s)` on any other string raises `bson.errors.InvalidId`. -/
def isValidObjectId (s : String) : Bool :=
  s.length == 24 && s.data.all isHexDigitChar

/-- `users_collection.find_one({"email": e})`: first document in natural order
with the given email. -/
def find_one_by_email (st : Store) (e : String) : Option StoredUser :=
  st.users.find? (fun u => u.email == e)

/-- `users_collection.find_one({"_id": oid})`: first document in natural order
with the given id. -/
def find_one_by_id (st : Store) (oid : String) : Option StoredUser :=
  st.users.find? (fun u => u.id == oid)

/-- Hex rendering of a `Nat`, used to generate fresh 24-character ObjectIds. -/
def objectIdOfNat (n : Nat) : String :=
  let ds := Nat.toDigits 16 n
  String.mk (List.replicate (24 - ds.length) (Char.ofNat 48)) ++ String.mk ds

/-- `users_collection.insert_one`: appends the document built from the freshly
generated `_id` and returns that id with the new store. -/
def insert_one (st : Store) (doc : String → StoredUser) : String × Store :=
  let oid := objectIdOfNat st.nextId
  (oid, { users := st.users ++ [doc oid], nextId := st.nextId + 1 })

/-- `update_one` on the first element matching `p`, applying `f`; `none` when
nothing matched (matched_count = 0). -/
def updateFirst (p : α → Bool) (f : α → α) : List α → Option (List α)
  | [] => none
  | x :: xs =>
    if p x then some (f x :: xs)
    else (updateFirst p f xs).map (fun ys => x :: ys)

/-- `delete_one` on the first element matching `p`; `none` when nothing
matched (deleted_count = 0). -/
def deleteFirst (p : α → Bool) : List α → Option (List α)
  | [] => none
  | x :: xs =>
    if p x then some xs
    else (deleteFirst p xs).map (fun ys => x :: ys)

/-- Outcome of `get_current_user` as observed by the caller: a resolved user,
an `HTTPException` payload (status and message of the `http_error` detail), or
an exception that escapes the handler uncaught. -/
inductive AuthOutcome where
  | ok (u : StoredUser)
  | httpError (status : Nat) (message : String)
  | crash (exn : String)
deriving DecidableEq

/-- From `get_current_user` in the source: decode the token (any `JWTError`
and a missing `sub` claim both yield the 401 `http_error`), then convert the
subject to an `ObjectId` — a conversion the source performs outside any
`try`, so an ill-formed subject raises `bson.errors.InvalidId` uncaught — and
look the user up in the collection, returning the live document. -/
def get_current_user (st : Store) (tok : BearerToken) (now : Int) :
    AuthOutcome :=
  match jwt_decode tok SECRET_KEY now with
  | .error _ => .httpError 401 "Invalid authentication token"
  | .ok payload =>
    match payload.sub with
    | none => .httpError 401 "Invalid authentication token"
    | some user_id =>
      if isValidObjectId user_id then
        match find_one_by_id st user_id with
        | none => .httpError 401 "User not found"
        | some u => .ok u
      else .crash "bson.errors.InvalidId"

/-- Outcome of `login` as observed by the caller. -/
inductive LoginOutcome where
  | success (access_token : SignedToken) (user : StoredUser)
  | httpError (status : Nat) (message : String)
deriving DecidableEq

/-- From `login` in the source: look the user up by email, verify the raw
password against the stored hash (both failures return the same 401 payload),
then issue a token carrying the user id and role with the default expiry. -/
def login (dg : Nat → Nat → String → Nat) (st : Store)
    (email password : String) (now : Int) : LoginOutcome :=
  match find_one_by_email st email with
  | none => .httpError 401 "Invalid email or password"
  | some u =>
    if verify_password dg password u.password then
      .success (create_access_token (some u.id) u.role none now) u
    else .httpError 401 "Invalid email or password"

/-- Exceptions that the CRUD handler bodies can raise: an `HTTPException`
built by `http_error`, `bson.errors.InvalidId`, or a `TypeError` from
`serialize(None)`.  None of these is a `ValueError`, so inside the handlers
they are all caught by the blanket `except Exception` clause. -/
inductive Exn where
  | httpExn (status : Nat) (message : String)
  | invalidId (s : String)
  | typeErr (s : String)
deriving DecidableEq

/-- The `str(e)` rendering that the handlers nest in the 500 details. -/
def exnText : Exn → String
  | .httpExn status msg => toString status ++ ": " ++ msg
  | .invalidId s => "InvalidId: " ++ s
  | .typeErr s => "TypeError: " ++ s

/-- Response of a CRUD handler: a success body, or the `http_error` payload
(status, message, and the details dict rendered as an optional string). -/
inductive CrudOutcome where
  | ok (message : String) (data : Option StoredUser)
  | httpError (status : Nat) (message : String) (details : Option String)
deriving DecidableEq

/-- Body of the `try` block of `create_user`: duplicate-email check, password
hashing, insertion, and re-read of the inserted document.  The store is
returned alongside so that an exception leaves visible exactly the mutations
performed before the raise. -/
def create_user_body (dg : Nat → Nat → String → Nat) (cost salt : Nat)
    (st : Store) (u : UserIn) : Except Exn CrudOutcome × Store :=
  match find_one_by_email st u.email with
  | some _ => (.error (.httpExn 400 "User with this email already exists"), st)
  | none =>
    let hashed := hash_password dg cost salt u.password
    let ins := insert_one st (fun oid =>
      ⟨oid, u.name, u.email, u.role, hashed, u.avatar, u.domain,
        u.permissions⟩)
    match find_one_by_id ins.2 ins.1 with
    | some w => (.ok (.ok "User created successfully" (some w)), ins.2)
    | none => (.error (.typeErr "document is None"), ins.2)

/-- `create_user` from the source: the `try` body wrapped by the handler's
except clauses.  `except ValueError` (422) can only fire for exceptions no
statement of the body raises, so every exception — the 400 `HTTPException`
included — is caught by `except Exception` and re-raised as the 500. -/
def create_user (dg : Nat → Nat → String → Nat) (cost salt : Nat)
    (st : Store) (u : UserIn) : CrudOutcome × Store :=
  match create_user_body dg cost salt st u with
  | (.ok out, st2) => (out, st2)
  | (.error e, st2) =>
    (.httpError 500 "Failed to create user" (some (exnText e)), st2)

/-- The `$set` document of `update_user`: every field of the request model,
with the freshly hashed password, applied to the matched record (the `_id` is
untouched). -/
def applyUpdate (u : UserIn) (pw : PwField) (r : StoredUser) : StoredUser :=
  { r with name := u.name, email := u.email, role := u.role, password := pw,
           avatar := u.avatar, domain := u.domain,
           permissions := u.permissions }

/-- Body of the `try` block of `update_user`: hash the password, convert the
path id (raising `InvalidId` inside the `try` when ill-formed), update the
first matching document, raise the 404 when nothing matched, and re-read. -/
def update_user_body (dg : Nat → Nat → String → Nat) (cost salt : Nat)
    (st : Store) (user_id : String) (u : UserIn) :
    Except Exn CrudOutcome × Store :=
  let hashed := hash_password dg cost salt u.password
  if isValidObjectId user_id then
    match updateFirst (fun r => r.id == user_id) (applyUpdate u hashed)
        st.users with
    | none => (.error (.httpExn 404 "User not found"), st)
    | some users2 =>
      let st2 : Store := { st with users := users2 }
      match find_one_by_id st2 user_id with
      | some w => (.ok (.ok "User updated successfully" (some w)), st2)
      | none => (.error (.typeErr "document is None"), st2)
  else (.error (.invalidId user_id), st)

/-- `update_user` from the source: the `try` body wrapped by the handler's
except clauses; as in `create_user`, every raised exception lands in
`except Exception` and becomes the 500. -/
def update_user (dg : Nat → Nat → String → Nat) (cost salt : Nat)
    (st : Store) (user_id : String) (u : UserIn) : CrudOutcome × Store :=
  match update_user_body dg cost salt st user_id u with
  | (.ok out, st2) => (out, st2)
  | (.error e, st2) =>
    (.httpError 500 "Failed to update user" (some (exnText e)), st2)

/-- Body of the `try` block of `delete_user`: convert the path id (raising
`InvalidId` inside the `try` when ill-formed), delete the first matching
document, raise the 404 when nothing matched. -/
def delete_user_body (st : Store) (user_id : String) :
    Except Exn CrudOutcome × Store :=
  if isValidObjectId user_id then
    match deleteFirst (fun r => r.id == user_id) st.users with
    | none => (.error (.httpExn 404 "User not found"), st)
    | some users2 =>
      (.ok (.ok ("User " ++ user_id ++ " deleted") none),
        { st with users := users2 })
  else (.error (.invalidId user_id), st)

/-- `delete_user` from the source: the `try` body wrapped by the handler's
except clause. -/
def delete_user (st : Store) (user_id : String) : CrudOutcome × Store :=
  match delete_user_body st user_id with
  | (.ok out, st2) => (out, st2)
  | (.error e, st2) =>
    (.httpError 500 "Failed to delete user" (some (exnText e)), st2)

/-! ## Theorems -/

/-- C1: for every raw password `p` (and every digest function, cost and
salt), verifying `p` against the stored hash produced by hashing `p` returns
`true`: `verify_password(p, hash_password(p)) = true`. -/
theorem verify_hash_roundtrip (dg : Nat → Nat → String → Nat)
    (cost salt : Nat) (p : String) :
    verify_password dg p (hash_password dg cost salt p) = true := by
  simp [verify_password, hash_password]

/-- C6: `verify_password` is a total boolean function — it returns `false` on
a stored value that is not a recognisable hash output, `false` on any digest
mismatch, and a boolean on every input (as a total Lean function it cannot
raise). -/
theorem verify_password_never_raises (dg : Nat → Nat → String → Nat)
    (raw : String) :
    (∀ s, verify_password dg raw (.plain s) = false)
    ∧ (∀ cost salt dgst, dg cost salt raw ≠ dgst →
        verify_password dg raw (.hashed cost salt dgst) = false)
    ∧ (∀ h, verify_password dg raw h = true ∨
        verify_password dg raw h = false) := by
  refine ⟨fun s => rfl, fun cost salt dgst hne => ?_, fun h => ?_⟩
  · simp [verify_password, hne]
  · cases hb : verify_password dg raw h
    · exact Or.inr rfl
    · exact Or.inl rfl

/-- Witness for C6 at a concrete digest, raw password, malformed stored value
and mismatching hash. -/
theorem verify_password_never_raises_witness :
    verify_password (fun _ _ _ => 0) "a" (.plain "not-a-hash") = false
    ∧ verify_password (fun _ _ _ => 0) "a" (.hashed 2 1 5) = false :=
  ⟨(verify_password_never_raises (fun _ _ _ => 0) "a").1 "not-a-hash",
   (verify_password_never_raises (fun _ _ _ => 0) "a").2.1 2 1 5 (by decide)⟩

/-- C3: the signature of an issued token covers every claim (subject, role,
expiry): decoding a token that carries the original signature but any altered
claim set — in particular any single-bit mutation of the subject, role or
expiry, which yields a different claim set — fails with the
invalid-signature error. -/
theorem signature_covers_all_claims (sub : Option String) (role : String)
    (delta : Option Int) (t0 now : Int) (c2 : TokenClaims)
    (h : c2 ≠ (create_access_token sub role delta t0).claims) :
    jwt_decode (.jwt ⟨c2, (create_access_token sub role delta t0).sig⟩)
      SECRET_KEY now = .error .invalidSignature := by
  simp only [create_access_token, jwt_encode] at h ⊢
  simp only [jwt_decode]
  rw [if_neg]
  simp only [TokenSig.mk.injEq, true_and]
  exact fun he => h he.symm

/-- Witness for C3: a token issued at time 0 for a concrete subject, with its
role claim altered after issuance, is rejected with the invalid-signature
error. -/
theorem signature_covers_all_claims_witness :
    jwt_decode
      (.jwt ⟨{ sub := some "aaaaaaaaaaaaaaaaaaaaaaaa", role := "individual",
               exp := 3600 },
             (create_access_token (some "aaaaaaaaaaaaaaaaaaaaaaaa") "admin"
               none 0).sig⟩)
      SECRET_KEY 5 = .error .invalidSignature :=
  signature_covers_all_claims (some "aaaaaaaaaaaaaaaaaaaaaaaa") "admin"
    none 0 5 _ (by decide)

/-- A trivial concrete digest function, used to instantiate witnesses. -/
def dg0 : Nat → Nat → String → Nat := fun _ _ _ => 0

/-- A concrete well-formed ObjectId. -/
def idA : String := "aaaaaaaaaaaaaaaaaaaaaaaa"

/-- A second concrete well-formed ObjectId. -/
def idB : String := "bbbbbbbbbbbbbbbbbbbbbbbb"

/-- A concrete stored user. -/
def uA : StoredUser :=
  ⟨idA, "Alice", "a@x.com", "admin", .hashed 2 1 0, none, "dom", []⟩

/-- A second concrete stored user, with a distinct email. -/
def uB : StoredUser :=
  ⟨idB, "Bob", "b@x.com", "individual", .hashed 2 1 0, none, "dom", []⟩

/-- A concrete store holding only `uA`. -/
def stA : Store := ⟨[uA], 1⟩

/-- A concrete store holding `uA` and `uB`. -/
def stAB : Store := ⟨[uA, uB], 2⟩

/-- Decoding a token signed with the same key reduces to the expiry test. -/
theorem jwt_decode_encode (c : TokenClaims) (key : String) (now : Int) :
    jwt_decode (.jwt (jwt_encode c key)) key now
      = if now ≥ c.exp then .error .expiredSignature else .ok c := by
  simp [jwt_decode, jwt_encode]

/-- The token issued by the source helpers with the default TTL carries the
subject, the role and an expiry 3600 seconds after issuance. -/
theorem create_access_token_default (sub : Option String) (role : String)
    (t0 : Int) :
    create_access_token sub role none t0
      = jwt_encode { sub := sub, role := role, exp := t0 + 3600 }
          SECRET_KEY := by
  simp [create_access_token, ACCESS_TOKEN_EXPIRE_MINUTES]

/-- C2: a token issued at `t0` with the default TTL of 60 minutes
authenticates successfully at every `t` with `t0 ≤ t < t0 + 3600` while the
subject identity exists in the store, and for every `t ≥ t0 + 3600` — the
boundary `t = t0 + 3600` included — decoding fails with the expired-token
error and `get_current_user` rejects the request. -/
theorem token_lifetime (st : Store) (uid role : String) (u : StoredUser)
    (t0 t : Int) (hval : isValidObjectId uid = true)
    (hfind : find_one_by_id st uid = some u) :
    (t0 ≤ t → t < t0 + 60 * 60 →
      get_current_user st
        (.jwt (create_access_token (some uid) role none t0)) t = .ok u)
    ∧ (t0 + 60 * 60 ≤ t →
      jwt_decode (.jwt (create_access_token (some uid) role none t0))
          SECRET_KEY t = .error .expiredSignature
      ∧ get_current_user st
          (.jwt (create_access_token (some uid) role none t0)) t
          = .httpError 401 "Invalid authentication token") := by
  rw [create_access_token_default]
  constructor
  · intro h1 h2
    have hd : jwt_decode
        (.jwt (jwt_encode { sub := some uid, role := role,
                            exp := t0 + 3600 } SECRET_KEY))
        SECRET_KEY t
        = .ok { sub := some uid, role := role, exp := t0 + 3600 } := by
      rw [jwt_decode_encode]
      exact if_neg (show ¬ t ≥ t0 + 3600 by omega)
    simp [get_current_user, hd, hval, hfind]
  · intro h1
    have hd : jwt_decode
        (.jwt (jwt_encode { sub := some uid, role := role,
                            exp := t0 + 3600 } SECRET_KEY))
        SECRET_KEY t = .error .expiredSignature := by
      rw [jwt_decode_encode]
      exact if_pos (show t ≥ t0 + 3600 by omega)
    exact ⟨hd, by simp [get_current_user, hd]⟩

/-- Witness for C2: in the store holding `uA`, the token issued for `uA` at
time 0 authenticates at time 10 and resolves to `uA`; at time 3600 (exactly
issue time plus TTL) it is rejected as expired. -/
theorem token_lifetime_witness :
    get_current_user stA (.jwt (create_access_token (some idA) "admin" none 0))
      10 = .ok uA
    ∧ (jwt_decode (.jwt (create_access_token (some idA) "admin" none 0))
        SECRET_KEY 3600 = .error .expiredSignature
      ∧ get_current_user stA
          (.jwt (create_access_token (some idA) "admin" none 0)) 3600
          = .httpError 401 "Invalid authentication token") :=
  ⟨(token_lifetime stA idA "admin" uA 0 10 (by decide) (by decide)).1
      (by decide) (by decide),
   (token_lifetime stA idA "admin" uA 0 3600 (by decide) (by decide)).2
      (by decide)⟩

/-- C4: for a structurally valid, correctly signed, unexpired token,
`get_current_user` returns the record currently stored under the token
subject — the store `st` here is arbitrary and independent of issuance, so
the result reflects the live record, not the snapshot in the token — and
fails with the 401 "User not found" payload when no record with that
identifier exists (for example because the account was deleted after
issuance). -/
theorem authenticate_resolves_live_identity (st : Store) (uid role : String)
    (t0 t : Int) (hval : isValidObjectId uid = true)
    (hexp : t < t0 + 60 * 60) :
    (∀ u, find_one_by_id st uid = some u →
      get_current_user st
        (.jwt (create_access_token (some uid) role none t0)) t = .ok u)
    ∧ (find_one_by_id st uid = none →
      get_current_user st
        (.jwt (create_access_token (some uid) role none t0)) t
        = .httpError 401 "User not found") := by
  rw [create_access_token_default]
  have hd : jwt_decode
      (.jwt (jwt_encode { sub := some uid, role := role,
                          exp := t0 + 3600 } SECRET_KEY))
      SECRET_KEY t
      = .ok { sub := some uid, role := role, exp := t0 + 3600 } := by
    rw [jwt_decode_encode]
    exact if_neg (show ¬ t ≥ t0 + 3600 by omega)
  constructor
  · intro u hfind
    simp [get_current_user, hd, hval, hfind]
  · intro hfind
    simp [get_current_user, hd, hval, hfind]

/-- Witness for C4: with an unexpired token for `uA`, authentication against
the store holding `uA` returns the stored record `uA`; authentication with an
unexpired token whose subject `idB` has no record returns the 401
"User not found" payload. -/
theorem authenticate_resolves_live_identity_witness :
    get_current_user stA (.jwt (create_access_token (some idA) "admin" none 0))
      10 = .ok uA
    ∧ get_current_user stA
        (.jwt (create_access_token (some idB) "admin" none 0)) 10
        = .httpError 401 "User not found" :=
  ⟨(authenticate_resolves_live_identity stA idA "admin" 0 10 (by decide)
      (by decide)).1 uA (by decide),
   (authenticate_resolves_live_identity stA idB "admin" 0 10 (by decide)
      (by decide)).2 (by decide)⟩

/-- An empty concrete store. -/
def st0 : Store := ⟨[], 0⟩

/-- C5 counterexample: a correctly signed, unexpired token whose subject
claim is not a well-formed ObjectId string makes `get_current_user` raise
`bson.errors.InvalidId` uncaught — the conversion happens outside the `try`
block — instead of terminating with a classified authentication failure. -/
theorem auth_crash_on_nonhex_subject :
    get_current_user st0
      (.jwt ⟨{ sub := some "xyz", role := "admin", exp := 100 },
             ⟨SECRET_KEY, { sub := some "xyz", role := "admin", exp := 100 }⟩⟩)
      0 = .crash "bson.errors.InvalidId" := by decide

/-- C5 amended: every authentication attempt terminates either in success or
in a classified 401 failure, except in exactly one case — a token that
decodes successfully but whose subject claim is present and not a well-formed
ObjectId, where the handler lets `bson.errors.InvalidId` escape uncaught. -/
theorem auth_failures_classified_except_bad_subject (st : Store)
    (tok : BearerToken) (now : Int) :
    (∃ u, get_current_user st tok now = .ok u)
    ∨ get_current_user st tok now
        = .httpError 401 "Invalid authentication token"
    ∨ get_current_user st tok now = .httpError 401 "User not found"
    ∨ (∃ c uid, jwt_decode tok SECRET_KEY now = .ok c ∧ c.sub = some uid
        ∧ isValidObjectId uid = false
        ∧ get_current_user st tok now = .crash "bson.errors.InvalidId") := by
  cases hdec : jwt_decode tok SECRET_KEY now with
  | error e =>
    refine Or.inr (Or.inl ?_)
    simp [get_current_user, hdec]
  | ok c =>
    cases hsub : c.sub with
    | none =>
      refine Or.inr (Or.inl ?_)
      simp [get_current_user, hdec, hsub]
    | some uid =>
      cases hval : isValidObjectId uid with
      | false =>
        refine Or.inr (Or.inr (Or.inr ⟨c, uid, rfl, hsub, hval, ?_⟩))
        simp [get_current_user, hdec, hsub, hval]
      | true =>
        cases hfind : find_one_by_id st uid with
        | none =>
          refine Or.inr (Or.inr (Or.inl ?_))
          simp [get_current_user, hdec, hsub, hval, hfind]
        | some u =>
          refine Or.inl ⟨u, ?_⟩
          simp [get_current_user, hdec, hsub, hval, hfind]

/-- C7 counterexample: two authentication failures of different kinds return
different payloads — a valid unexpired token whose subject has no record
yields the 401 "User not found" message, while a malformed token yields the
401 "Invalid authentication token" message, so the failure kinds are
distinguishable from the response. -/
theorem error_payloads_distinguishable :
    get_current_user stA
      (.jwt ⟨{ sub := some idB, role := "admin", exp := 100 },
             ⟨SECRET_KEY, { sub := some idB, role := "admin", exp := 100 }⟩⟩)
      0 = .httpError 401 "User not found"
    ∧ get_current_user stA (.malformed "garbage") 0
        = .httpError 401 "Invalid authentication token"
    ∧ ("User not found" : String) ≠ "Invalid authentication token" := by
  refine ⟨by decide, rfl, by decide⟩

/-- C7 amended: the failure payloads are uniform within two groups but not
across all five kinds — malformed-token, invalid-signature and expired-token
failures all return the 401 "Invalid authentication token" payload, and
unknown-email and password-mismatch logins both return the 401
"Invalid email or password" payload, while subject-not-found returns the
distinct 401 "User not found" payload. -/
theorem error_payload_groups (dg : Nat → Nat → String → Nat) (st : Store)
    (now : Int) :
    (∀ s, get_current_user st (.malformed s) now
        = .httpError 401 "Invalid authentication token")
    ∧ (∀ t : SignedToken, t.sig ≠ TokenSig.mk SECRET_KEY t.claims →
        get_current_user st (.jwt t) now
          = .httpError 401 "Invalid authentication token")
    ∧ (∀ t : SignedToken, t.sig = TokenSig.mk SECRET_KEY t.claims →
        now ≥ t.claims.exp →
        get_current_user st (.jwt t) now
          = .httpError 401 "Invalid authentication token")
    ∧ (∀ e p, find_one_by_email st e = none →
        login dg st e p now = .httpError 401 "Invalid email or password")
    ∧ (∀ e p u, find_one_by_email st e = some u →
        verify_password dg p u.password = false →
        login dg st e p now = .httpError 401 "Invalid email or password") := by
  refine ⟨fun s => rfl, fun t hsig => ?_, fun t hsig hexp => ?_,
    fun e p hfind => ?_, fun e p u hfind hver => ?_⟩
  · simp [get_current_user, jwt_decode, hsig]
  · simp [get_current_user, jwt_decode, hsig, hexp]
  · simp [login, hfind]
  · simp [login, hfind, hver]

/-- A second concrete digest function, under which no password verifies
against the hashes stored in the concrete stores above. -/
def dg1 : Nat → Nat → String → Nat := fun _ _ _ => 1

/-- Witness for the amended C7 at concrete inputs: one failure of each kind,
each returning the payload of its group. -/
theorem error_payload_groups_witness :
    get_current_user st0 (.malformed "zz") 0
      = .httpError 401 "Invalid authentication token"
    ∧ get_current_user st0
        (.jwt ⟨{ sub := some idA, role := "admin", exp := 100 },
               ⟨"wrong-key", { sub := some idA, role := "admin",
                               exp := 100 }⟩⟩) 0
        = .httpError 401 "Invalid authentication token"
    ∧ get_current_user st0
        (.jwt ⟨{ sub := some idA, role := "admin", exp := 100 },
               ⟨SECRET_KEY, { sub := some idA, role := "admin",
                              exp := 100 }⟩⟩) 500
        = .httpError 401 "Invalid authentication token"
    ∧ login dg1 st0 "nobody@x.com" "pw" 0
        = .httpError 401 "Invalid email or password"
    ∧ login dg1 stA "a@x.com" "wrong" 0
        = .httpError 401 "Invalid email or password" :=
  ⟨(error_payload_groups dg1 st0 0).1 "zz",
   (error_payload_groups dg1 st0 0).2.1 _ (by decide),
   (error_payload_groups dg1 st0 500).2.2.1 _ (by decide) (by decide),
   (error_payload_groups dg1 st0 0).2.2.2.1 "nobody@x.com" "pw" (by decide),
   (error_payload_groups dg1 stA 0).2.2.2.2 "a@x.com" "wrong" uA (by decide)
     (by decide)⟩

/-! ### Helper lemmas about the store primitives -/

theorem updateFirst_eq_none {p : α → Bool} {f : α → α} {l : List α}
    (h : ∀ x ∈ l, ¬ p x = true) : updateFirst p f l = none := by
  induction l with
  | nil => rfl
  | cons a as ih =>
    have hpa : ¬ p a = true := h a (List.mem_cons_self a as)
    simp only [updateFirst, if_neg hpa]
    rw [ih (fun x hx => h x (List.mem_cons_of_mem a hx))]
    rfl

theorem deleteFirst_eq_none {p : α → Bool} {l : List α}
    (h : ∀ x ∈ l, ¬ p x = true) : deleteFirst p l = none := by
  induction l with
  | nil => rfl
  | cons a as ih =>
    have hpa : ¬ p a = true := h a (List.mem_cons_self a as)
    simp only [deleteFirst, if_neg hpa]
    rw [ih (fun x hx => h x (List.mem_cons_of_mem a hx))]
    rfl

theorem updateFirst_eq_some {p : α → Bool} {f : α → α} {l l2 : List α}
    (h : updateFirst p f l = some l2) :
    ∃ l1 x l3, l = l1 ++ x :: l3 ∧ p x = true ∧ (∀ y ∈ l1, p y = false)
      ∧ l2 = l1 ++ f x :: l3 := by
  induction l generalizing l2 with
  | nil => simp [updateFirst] at h
  | cons a as ih =>
    by_cases hp : p a = true
    · simp only [updateFirst, if_pos hp, Option.some.injEq] at h
      exact ⟨[], a, as, rfl, hp, by simp, h.symm⟩
    · simp only [updateFirst, if_neg hp] at h
      rcases Option.map_eq_some'.mp h with ⟨ys, hys, hl2⟩
      rcases ih hys with ⟨l1, x, l3, hl, hpx, hl1, hys2⟩
      refine ⟨a :: l1, x, l3, by rw [hl]; rfl, hpx, ?_, ?_⟩
      · intro y hy
        rcases List.mem_cons.mp hy with h1 | h1
        · subst h1; exact Bool.not_eq_true _ ▸ (Bool.eq_false_iff.mpr hp)
        · exact hl1 y h1
      · rw [← hl2, hys2]; rfl

theorem deleteFirst_eq_some {p : α → Bool} {l l2 : List α}
    (h : deleteFirst p l = some l2) :
    ∃ l1 x l3, l = l1 ++ x :: l3 ∧ l2 = l1 ++ l3 := by
  induction l generalizing l2 with
  | nil => simp [deleteFirst] at h
  | cons a as ih =>
    by_cases hp : p a = true
    · simp only [deleteFirst, if_pos hp, Option.some.injEq] at h
      exact ⟨[], a, as, rfl, h.symm⟩
    · simp only [deleteFirst, if_neg hp] at h
      rcases Option.map_eq_some'.mp h with ⟨ys, hys, hl2⟩
      rcases ih hys with ⟨l1, x, l3, hl, hys2⟩
      exact ⟨a :: l1, x, l3, by rw [hl]; rfl, by rw [← hl2, hys2]; rfl⟩

/-- The wrapped `create_user` leaves exactly the store its body produced. -/
theorem create_user_snd (dg : Nat → Nat → String → Nat) (cost salt : Nat)
    (st : Store) (u : UserIn) :
    (create_user dg cost salt st u).2 = (create_user_body dg cost salt st u).2 := by
  unfold create_user
  rcases hb : create_user_body dg cost salt st u with ⟨r1, st2⟩
  cases r1 <;> rfl

/-- The wrapped `update_user` leaves exactly the store its body produced. -/
theorem update_user_snd (dg : Nat → Nat → String → Nat) (cost salt : Nat)
    (st : Store) (uid : String) (u : UserIn) :
    (update_user dg cost salt st uid u).2
      = (update_user_body dg cost salt st uid u).2 := by
  unfold update_user
  rcases hb : update_user_body dg cost salt st uid u with ⟨r1, st2⟩
  cases r1 <;> rfl

/-- The wrapped `delete_user` leaves exactly the store its body produced. -/
theorem delete_user_snd (st : Store) (uid : String) :
    (delete_user st uid).2 = (delete_user_body st uid).2 := by
  unfold delete_user
  rcases hb : delete_user_body st uid with ⟨r1, st2⟩
  cases r1 <;> rfl

/-- The store after `create_user` is either unchanged or the old store with
the freshly hashed document appended. -/
theorem create_user_body_store (dg : Nat → Nat → String → Nat)
    (cost salt : Nat) (st : Store) (u : UserIn) :
    (create_user_body dg cost salt st u).2 = st
    ∨ (find_one_by_email st u.email = none
        ∧ (create_user_body dg cost salt st u).2.users
            = st.users ++ [⟨objectIdOfNat st.nextId, u.name, u.email, u.role,
                hash_password dg cost salt u.password, u.avatar, u.domain,
                u.permissions⟩]) := by
  unfold create_user_body insert_one
  cases hfe : find_one_by_email st u.email with
  | some w => simp [hfe]
  | none =>
    cases hfd : find_one_by_id
        ⟨st.users ++ [⟨objectIdOfNat st.nextId, u.name, u.email, u.role,
            hash_password dg cost salt u.password, u.avatar, u.domain,
            u.permissions⟩], st.nextId + 1⟩ (objectIdOfNat st.nextId) with
    | some w => right; exact ⟨rfl, by simp [hfe, hfd]⟩
    | none => right; exact ⟨rfl, by simp [hfe, hfd]⟩

/-- The store after `update_user` is either unchanged or carries the user
list produced by `updateFirst` on the matched document. -/
theorem update_user_body_store (dg : Nat → Nat → String → Nat)
    (cost salt : Nat) (st : Store) (uid : String) (u : UserIn) :
    (update_user_body dg cost salt st uid u).2 = st
    ∨ ∃ users2,
        updateFirst (fun r => r.id == uid)
          (applyUpdate u (hash_password dg cost salt u.password)) st.users
          = some users2
        ∧ (update_user_body dg cost salt st uid u).2 = ⟨users2, st.nextId⟩ := by
  unfold update_user_body
  by_cases hval : isValidObjectId uid = true
  · cases hupd : updateFirst (fun r => r.id == uid)
        (applyUpdate u (hash_password dg cost salt u.password)) st.users with
    | none => simp [hval, hupd]
    | some users2 =>
      right
      refine ⟨users2, rfl, ?_⟩
      cases hfd : find_one_by_id ⟨users2, st.nextId⟩ uid <;>
        simp [hval, hupd, hfd, Store.mk.injEq]
  · simp [hval]

/-- The store after `delete_user` is either unchanged or carries the user
list produced by `deleteFirst`. -/
theorem delete_user_body_store (st : Store) (uid : String) :
    (delete_user_body st uid).2 = st
    ∨ ∃ users2, deleteFirst (fun r => r.id == uid) st.users = some users2
        ∧ (delete_user_body st uid).2 = ⟨users2, st.nextId⟩ := by
  unfold delete_user_body
  by_cases hval : isValidObjectId uid = true
  · cases hdel : deleteFirst (fun r => r.id == uid) st.users with
    | none => simp [hval, hdel]
    | some users2 => right; exact ⟨users2, rfl, by simp [hval]⟩
  · simp [hval]

/-- C9: no user operation ever writes a plaintext password: every record in
the store after `create_user`, `update_user` or `delete_user` either was
already stored before the call or carries exactly the hash of the password
supplied in the request — `create_user` stores only the hash of the supplied
password and `update_user` re-hashes the supplied password before storing
it. -/
theorem passwords_always_hashed (dg : Nat → Nat → String → Nat)
    (cost salt : Nat) (st : Store) (u : UserIn) (uid : String) :
    (∀ r ∈ (create_user dg cost salt st u).2.users,
        r ∈ st.users ∨ r.password = hash_password dg cost salt u.password)
    ∧ (∀ r ∈ (update_user dg cost salt st uid u).2.users,
        r ∈ st.users ∨ r.password = hash_password dg cost salt u.password)
    ∧ (∀ r ∈ (delete_user st uid).2.users, r ∈ st.users) := by
  refine ⟨?_, ?_, ?_⟩
  · rw [create_user_snd]
    rcases create_user_body_store dg cost salt st u with h | ⟨hfe, h⟩
    · rw [h]; exact fun r hr => Or.inl hr
    · rw [h]
      intro r hr
      rcases List.mem_append.mp hr with h1 | h1
      · exact Or.inl h1
      · right
        rw [List.mem_singleton.mp h1]
  · rw [update_user_snd]
    rcases update_user_body_store dg cost salt st uid u with h | ⟨us2, hupd, h⟩
    · rw [h]; exact fun r hr => Or.inl hr
    · rw [h]
      intro r hr
      rcases updateFirst_eq_some hupd with ⟨l1, x, l3, hl, hpx, hl1, hl2⟩
      subst hl2
      rcases List.mem_append.mp hr with h1 | h1
      · exact Or.inl (by rw [hl]; exact List.mem_append_left _ h1)
      · rcases List.mem_cons.mp h1 with h2 | h2
        · right; rw [h2]; rfl
        · exact Or.inl (by
            rw [hl]
            exact List.mem_append_right _ (List.mem_cons_of_mem _ h2))
  · rw [delete_user_snd]
    rcases delete_user_body_store st uid with h | ⟨us2, hdel, h⟩
    · rw [h]; exact fun r hr => hr
    · rw [h]
      intro r hr
      rcases deleteFirst_eq_some hdel with ⟨l1, x, l3, hl, hl2⟩
      subst hl2
      rw [hl]
      rcases List.mem_append.mp hr with h1 | h1
      · exact List.mem_append_left _ h1
      · exact List.mem_append_right _ (List.mem_cons_of_mem _ h1)

/-- A concrete create request. -/
def u0 : UserIn := ⟨"Carol", "c@x.com", "individual", "pw", none, "dom", []⟩

/-- The document that creating `u0` in the empty store appends. -/
def r0 : StoredUser :=
  ⟨objectIdOfNat 0, "Carol", "c@x.com", "individual", .hashed 2 1 0, none,
    "dom", []⟩

/-- Witness for C9: the record that `create_user` inserts into the empty
store for the request `u0` carries the hash of the supplied password. -/
theorem passwords_always_hashed_witness :
    r0 ∈ st0.users ∨ r0.password = hash_password dg0 2 1 u0.password :=
  (passwords_always_hashed dg0 2 1 st0 u0 idA).1 r0 (by decide)

/-- C10: on the intended client-error branches — duplicate email on create,
missing record on update or delete — the `HTTPException` raised inside the
handler `try` block is caught by the same handler blanket `except Exception`
clause and re-raised as a 500 "Failed to ..." error whose details nest the
original error text, so the caller observes 500 instead of the intended
400/404; the store is left unmodified on these branches. -/
theorem client_errors_masked_as_500 (dg : Nat → Nat → String → Nat)
    (cost salt : Nat) (st : Store) (u : UserIn) (uid : String)
    (w : StoredUser) :
    (find_one_by_email st u.email = some w →
      create_user dg cost salt st u
        = (.httpError 500 "Failed to create user"
            (some (exnText
              (.httpExn 400 "User with this email already exists"))), st))
    ∧ (isValidObjectId uid = true → find_one_by_id st uid = none →
      update_user dg cost salt st uid u
        = (.httpError 500 "Failed to update user"
            (some (exnText (.httpExn 404 "User not found"))), st))
    ∧ (isValidObjectId uid = true → find_one_by_id st uid = none →
      delete_user st uid
        = (.httpError 500 "Failed to delete user"
            (some (exnText (.httpExn 404 "User not found"))), st)) := by
  refine ⟨fun hfe => ?_, fun hval hnone => ?_, fun hval hnone => ?_⟩
  · simp [create_user, create_user_body, hfe]
  · have h1 : updateFirst (fun r => r.id == uid)
        (applyUpdate u (hash_password dg cost salt u.password)) st.users
        = none := by
      refine updateFirst_eq_none ?_
      simpa [find_one_by_id, List.find?_eq_none] using hnone
    simp [update_user, update_user_body, hval, h1]
  · have h1 : deleteFirst (fun r => r.id == uid) st.users = none := by
      refine deleteFirst_eq_none ?_
      simpa [find_one_by_id, List.find?_eq_none] using hnone
    simp [delete_user, delete_user_body, hval, h1]

/-- A create request whose email duplicates the stored user `uA`. -/
def uDup : UserIn := ⟨"Eve", "a@x.com", "admin", "pw2", none, "dom", []⟩

/-- Witness for C10: creating a user with `uA` email in the store holding
`uA`, and updating or deleting the absent id `idB`, each produce the masked
500 payload and leave the store unchanged. -/
theorem client_errors_masked_as_500_witness :
    create_user dg0 2 1 stA uDup
      = (.httpError 500 "Failed to create user"
          (some (exnText
            (.httpExn 400 "User with this email already exists"))), stA)
    ∧ update_user dg0 2 1 stA idB uDup
        = (.httpError 500 "Failed to update user"
            (some (exnText (.httpExn 404 "User not found"))), stA)
    ∧ delete_user stA idB
        = (.httpError 500 "Failed to delete user"
            (some (exnText (.httpExn 404 "User not found"))), stA) :=
  ⟨(client_errors_masked_as_500 dg0 2 1 stA uDup idB uA).1 (by decide),
   (client_errors_masked_as_500 dg0 2 1 stA uDup idB uA).2.1
     (by decide) (by decide),
   (client_errors_masked_as_500 dg0 2 1 stA uDup idB uA).2.2
     (by decide) (by decide)⟩

/-- An update request that moves a user onto the email of the stored user
`uB`. -/
def uMove : UserIn := ⟨"Alice2", "b@x.com", "admin", "pw", none, "dom", []⟩

/-- C8 counterexample: in a store whose emails are all distinct, updating
`uA` to the email of `uB` succeeds — `update_user` performs no duplicate
check — and leaves the store with two identities sharing an email, so email
uniqueness is not preserved by every user operation. -/
theorem update_breaks_email_uniqueness :
    (stAB.users.map (fun r => r.email)).Nodup
    ∧ ¬ ((update_user dg0 2 1 stAB idA uMove).2.users.map
        (fun r => r.email)).Nodup := by decide

/-- C8 amended: `create_user` and `delete_user` preserve email distinctness
(in particular creating with an existing email fails without inserting), and
`update_user` preserves it only under the extra hypothesis that the supplied
email does not belong to any other stored identity — the source performs no
duplicate check on update, so without that hypothesis uniqueness can be
broken (ids are assumed distinct, as Mongo `_id` values are). -/
theorem email_uniqueness_amended (dg : Nat → Nat → String → Nat)
    (cost salt : Nat) (st : Store) (u : UserIn) (uid : String)
    (w : StoredUser) :
    ((st.users.map (fun r => r.email)).Nodup →
      ((create_user dg cost salt st u).2.users.map
        (fun r => r.email)).Nodup)
    ∧ ((st.users.map (fun r => r.email)).Nodup →
      ((delete_user st uid).2.users.map (fun r => r.email)).Nodup)
    ∧ ((st.users.map (fun r => r.id)).Nodup →
      (st.users.map (fun r => r.email)).Nodup →
      (∀ r ∈ st.users, r.id ≠ uid → r.email ≠ u.email) →
      ((update_user dg cost salt st uid u).2.users.map
        (fun r => r.email)).Nodup)
    ∧ (find_one_by_email st u.email = some w →
      (create_user dg cost salt st u).2 = st) := by
  refine ⟨fun hem => ?_, fun hem => ?_, fun hid hem hfresh => ?_,
    fun hfe => ?_⟩
  · rw [create_user_snd]
    rcases create_user_body_store dg cost salt st u with h | ⟨hfe, h⟩
    · rw [h]; exact hem
    · rw [h, List.map_append]
      have hfree : u.email ∉ st.users.map (fun r => r.email) := by
        intro hmem
        rcases List.mem_map.mp hmem with ⟨y, hy, hye⟩
        have := List.find?_eq_none.mp hfe y hy
        simp only [beq_iff_eq] at this
        exact this hye
      refine List.Nodup.append hem (by simp) ?_
      intro a ha hb
      simp only [List.map_cons, List.map_nil, List.mem_singleton] at hb
      subst hb
      exact hfree ha
  · rw [delete_user_snd]
    rcases delete_user_body_store st uid with h | ⟨us2, hdel, h⟩
    · rw [h]; exact hem
    · rw [h]
      rcases deleteFirst_eq_some hdel with ⟨l1, x, l3, hl, hl2⟩
      subst hl2
      rw [hl, List.map_append, List.map_cons] at hem
      have := (List.nodup_cons.mp (List.nodup_middle.mp hem)).2
      simpa [List.map_append] using this
  · rw [update_user_snd]
    rcases update_user_body_store dg cost salt st uid u with h | ⟨us2, hupd, h⟩
    · rw [h]; exact hem
    · rw [h]
      rcases updateFirst_eq_some hupd with ⟨l1, x, l3, hl, hpx, hl1, hl2⟩
      subst hl2
      have hxid : x.id = uid := by simpa using hpx
      rw [hl, List.map_append, List.map_cons] at hem hid
      obtain ⟨hxnot, hrest⟩ := List.nodup_cons.mp (List.nodup_middle.mp hem)
      obtain ⟨hxidnot, hidrest⟩ :=
        List.nodup_cons.mp (List.nodup_middle.mp hid)
      show ((l1 ++ applyUpdate u (hash_password dg cost salt u.password) x
        :: l3).map (fun r => r.email)).Nodup
      rw [List.map_append, List.map_cons]
      refine List.nodup_middle.mpr (List.nodup_cons.mpr ⟨?_, hrest⟩)
      show u.email ∉ _
      intro hmem
      rcases List.mem_append.mp hmem with h1 | h1
      · rcases List.mem_map.mp h1 with ⟨y, hy, hye⟩
        have hyid : y.id ≠ uid := by
          have := hl1 y hy
          simp only [beq_eq_false_iff_ne] at this
          exact this
        exact hfresh y (by rw [hl]; exact List.mem_append_left _ hy)
          hyid hye
      · rcases List.mem_map.mp h1 with ⟨y, hy, hye⟩
        have hyid : y.id ≠ uid := by
          intro hcontra
          apply hxidnot
          exact List.mem_append_right _
            (List.mem_map.mpr ⟨y, hy, by rw [hcontra, hxid]⟩)
        exact hfresh y
          (by rw [hl];
              exact List.mem_append_right _ (List.mem_cons_of_mem _ hy))
          hyid hye
  · rw [create_user_snd]
    unfold create_user_body
    simp [hfe]

/-- An update request with an email no other stored identity uses. -/
def uSafe : UserIn := ⟨"Alice2", "a2@x.com", "admin", "pw", none, "dom", []⟩

/-- Witness for the amended C8 at concrete inputs: on the two-user store with
distinct ids and emails, creating a fresh user, deleting a user, and updating
a user to an email no other identity holds all preserve email distinctness,
and creating with a duplicate email leaves the store unchanged. -/
theorem email_uniqueness_amended_witness :
    ((create_user dg0 2 1 stAB u0).2.users.map (fun r => r.email)).Nodup
    ∧ ((delete_user stAB idA).2.users.map (fun r => r.email)).Nodup
    ∧ ((update_user dg0 2 1 stAB idA uSafe).2.users.map
        (fun r => r.email)).Nodup
    ∧ (create_user dg0 2 1 stAB uDup).2 = stAB :=
  ⟨(email_uniqueness_amended dg0 2 1 stAB u0 idA uA).1 (by decide),
   (email_uniqueness_amended dg0 2 1 stAB u0 idA uA).2.1 (by decide),
   (email_uniqueness_amended dg0 2 1 stAB uSafe idA uA).2.2.1 (by decide)
     (by decide) (by decide),
   (email_uniqueness_amended dg0 2 1 stAB uDup idA uA).2.2.2 (by decide)⟩

end Neodusria
